import Mathlib

/-!
Shallow embedding of `src/frontend/src-tauri/src/main.rs` (the desktop-shell
bootstrap of the `hamba` repository).

The only logic of the source lives in the `setup` closure passed to
`tauri::Builder::default()`:

* release builds (`#[cfg(not(debug_assertions))]`):
  `_app.shell().sidecar("backend").expect("Failed to create sidecar command")`
  then `sidecar.spawn().expect("Failed to spawn backend sidecar")`, storing
  the child via `_app.manage(child)` and discarding the receiver `_rx`;
* debug builds (`#[cfg(debug_assertions)]`):
  a single `println!` telling the operator to run the backend manually.

The closure ends with `Ok(())`, and `.run(...)` afterwards enters the event
loop (propagating a setup `Err` into the outer
`.expect("error while running tauri application")`).

We model the build flag as `BuildMode`, the host environment (whether the
bundled sidecar can be resolved and whether the OS accepts process creation)
as `Env`, and the observable behaviour as a list of `Event`s plus an outcome.
-/

/-- Compile-time build flag: `debug_assertions` on (debug) or off (release). -/
inductive BuildMode
  | debug
  | release
deriving DecidableEq, Repr

/-- Host environment facts the release branch depends on:
whether `sidecar("backend")` resolves the bundled executable, and whether the
operating system accepts the `spawn()` call. -/
structure Env where
  sidecarResolves : Bool
  spawnSucceeds : Bool
deriving DecidableEq, Repr

/-- Observable events of a run, in program order. -/
inductive Event
  | resolveSidecar (name : String)
  | spawnAttempt (name : String)
  | manageChild
  | printlnOut (msg : String)
  | readFromRx
  | enterEventLoop
deriving DecidableEq, Repr

/-- Handle of the spawned sidecar process (`child` in the source). -/
inductive Child
  | mk
deriving DecidableEq, Repr

/-- Process-wide application state (`_app.manage(child)` registers the child
handle in the framework state container). -/
structure AppState where
  managedChild : Option Child
deriving DecidableEq, Repr

/-- Outcome of the setup closure: either a panic (from `.expect`) aborting
startup, or normal completion returning the `Result` value of the closure
together with the application state it left behind. -/
inductive SetupOutcome
  | panicked (msg : String)
  | completed (ret : Except String Unit) (st : AppState)
deriving Repr

/-- The diagnostic message printed by the debug branch. -/
def devModeMsg : String :=
  "Dev mode: Run backend separately with \x27cd backend && bun run dev\x27"

/-- The `setup` closure of `main.rs`, lines 11-29, as a function of the
build flag and the environment.  Release branch: resolve the sidecar command
(panicking with the first `expect` message on failure), attempt the spawn
(panicking with the second `expect` message on OS refusal), and on success
manage the child handle while discarding the receiver `_rx`.  Debug branch:
print the diagnostic only.  Both branches end in `Ok(())`. -/
def setupClosure (mode : BuildMode) (env : Env) : List Event × SetupOutcome :=
  match mode with
  | .release =>
    if env.sidecarResolves then
      if env.spawnSucceeds then
        ([.resolveSidecar "backend", .spawnAttempt "backend", .manageChild],
         .completed (Except.ok ()) ⟨some Child.mk⟩)
      else
        ([.resolveSidecar "backend", .spawnAttempt "backend"],
         .panicked "Failed to spawn backend sidecar")
    else
      ([.resolveSidecar "backend"],
       .panicked "Failed to create sidecar command")
  | .debug =>
    ([.printlnOut devModeMsg], .completed (Except.ok ()) ⟨none⟩)

/-- Outcome of the whole application run: aborted during startup (panic or
propagated setup error), or running the event loop with the final state. -/
inductive RunOutcome
  | aborted (msg : String)
  | running (st : AppState)
deriving Repr

/-- The whole of `main`: run the setup closure; a panic aborts startup, a
returned `Err` makes `Builder.run` fail and the outer
`.expect("error while running tauri application")` panic, and `Ok(())` lets
the application enter its event loop with the state setup produced.  The
event loop itself does not touch the managed state. -/
def runApp (mode : BuildMode) (env : Env) : List Event × RunOutcome :=
  match setupClosure mode env with
  | (tr, .panicked msg) => (tr, .aborted msg)
  | (tr, .completed (Except.error _) _) =>
      (tr, .aborted "error while running tauri application")
  | (tr, .completed (Except.ok ()) st) =>
      (tr ++ [.enterEventLoop], .running st)

/-- Number of `spawn()` attempts recorded in a trace. -/
def countSpawnAttempts (tr : List Event) : Nat :=
  (tr.filter fun e => match e with
    | .spawnAttempt _ => true
    | _ => false).length

/-- Number of diagnostic messages printed to standard output in a trace. -/
def countPrintln (tr : List Event) : Nat :=
  (tr.filter fun e => match e with
    | .printlnOut _ => true
    | _ => false).length

/-- Number of reads from the spawn receiver (`_rx`) in a trace. -/
def countRxReads (tr : List Event) : Nat :=
  (tr.filter fun e => match e with
    | .readFromRx => true
    | _ => false).length

/-- The two mutually exclusive branches of the setup closure. -/
inductive Branch
  | releaseSpawn
  | debugDiagnostic
deriving DecidableEq, Repr

/-- Which branch a setup trace came from, read off from its observable
events: the debug branch is exactly the one that prints. -/
def branchOf (tr : List Event) : Branch :=
  if tr.any (fun e => match e with
    | .printlnOut _ => true
    | _ => false) then .debugDiagnostic else .releaseSpawn

/-- Every event at position `i` of `tr` matching `p` precedes every event at
position `j` matching `q`. -/
def eventsPrecede (tr : List Event) (p q : Event → Bool) : Prop :=
  ∀ i j : Fin tr.length, p (tr.get i) = true → q (tr.get j) = true →
    (i : Nat) < (j : Nat)

/-- Is this event a spawn attempt of the executable named "backend"? -/
def isBackendSpawn (e : Event) : Bool :=
  match e with
  | .spawnAttempt n => n = "backend"
  | _ => false

/-- Is this event the entry into the main event loop? -/
def isLoopEntry (e : Event) : Bool :=
  match e with
  | .enterEventLoop => true
  | _ => false

instance (tr : List Event) (p q : Event → Bool) :
    Decidable (eventsPrecede tr p q) := by
  unfold eventsPrecede; infer_instance

/-! Claim theorems. -/

/-- C1 (counterexample): the claim "for every release-mode startup, exactly
one attempt to spawn the backend occurs" fails when sidecar resolution
fails: in the environment where `sidecar("backend")` cannot be resolved,
startup panics before `spawn()` is ever called, so the release-mode run
contains zero spawn attempts. -/
theorem release_spawn_zero_when_resolution_fails :
    countSpawnAttempts (runApp BuildMode.release ⟨false, true⟩).1 = 0 ∧
    (runApp BuildMode.release ⟨false, true⟩).2 =
      RunOutcome.aborted "Failed to create sidecar command" := by
  exact ⟨rfl, rfl⟩

/-- C1 (amended): for every release-mode startup, at most one attempt to
spawn the executable named "backend" occurs; exactly one occurs whenever
the sidecar command resolves; and every spawn attempt happens during setup,
before the main event loop starts. -/
theorem release_spawn_once_before_loop (env : Env) :
    countSpawnAttempts (runApp BuildMode.release env).1 ≤ 1 ∧
    (env.sidecarResolves = true →
      countSpawnAttempts (runApp BuildMode.release env).1 = 1) ∧
    eventsPrecede (runApp BuildMode.release env).1 isBackendSpawn
      isLoopEntry := by
  rcases env with ⟨r, s⟩
  cases r <;> cases s <;> exact ⟨by decide, fun h => by revert h; decide,
    by decide⟩

/-- C1 witness: in the all-success environment the release run has exactly
one spawn attempt. -/
theorem release_spawn_once_before_loop_witness :
    countSpawnAttempts (runApp BuildMode.release ⟨true, true⟩).1 = 1 :=
  (release_spawn_once_before_loop ⟨true, true⟩).2.1 rfl

/-- C2: for every debug-mode startup, zero process-spawn attempts occur and
exactly one diagnostic message (the instruction to start the backend
manually) is printed to standard output; the full trace is that one message
followed by event-loop entry. -/
theorem debug_no_spawn_one_message (env : Env) :
    countSpawnAttempts (runApp BuildMode.debug env).1 = 0 ∧
    countPrintln (runApp BuildMode.debug env).1 = 1 ∧
    (runApp BuildMode.debug env).1 =
      [Event.printlnOut devModeMsg, Event.enterEventLoop] := by
  exact ⟨rfl, rfl, rfl⟩

/-- C3: in release mode, if the bundled backend executable cannot be
resolved, the run aborts with the resolution panic (the `ResolutionError`
case, message "Failed to create sidecar command") and the main event loop
is never entered. -/
theorem release_resolution_failure_aborts (env : Env)
    (h : env.sidecarResolves = false) :
    (runApp BuildMode.release env).2 =
      RunOutcome.aborted "Failed to create sidecar command" ∧
    Event.enterEventLoop ∉ (runApp BuildMode.release env).1 := by
  rcases env with ⟨r, s⟩
  cases r
  · cases s <;> exact ⟨rfl, by decide⟩
  · exact Bool.noConfusion h

/-- C3 witness: concrete environment with failing resolution. -/
theorem release_resolution_failure_aborts_witness :
    (runApp BuildMode.release ⟨false, true⟩).2 =
      RunOutcome.aborted "Failed to create sidecar command" ∧
    Event.enterEventLoop ∉ (runApp BuildMode.release ⟨false, true⟩).1 :=
  release_resolution_failure_aborts ⟨false, true⟩ rfl

/-- C4: in release mode, if the operating system refuses to create the
child process, the run aborts with the spawn panic (the `SpawnError` case,
message "Failed to spawn backend sidecar") and the main event loop is never
entered. -/
theorem release_spawn_failure_aborts (env : Env)
    (h1 : env.sidecarResolves = true) (h2 : env.spawnSucceeds = false) :
    (runApp BuildMode.release env).2 =
      RunOutcome.aborted "Failed to spawn backend sidecar" ∧
    Event.enterEventLoop ∉ (runApp BuildMode.release env).1 := by
  rcases env with ⟨r, s⟩
  cases r
  · exact Bool.noConfusion h1
  · cases s
    · exact ⟨rfl, by decide⟩
    · exact Bool.noConfusion h2

/-- C4 witness: concrete environment where resolution succeeds but the OS
rejects process creation. -/
theorem release_spawn_failure_aborts_witness :
    (runApp BuildMode.release ⟨true, false⟩).2 =
      RunOutcome.aborted "Failed to spawn backend sidecar" ∧
    Event.enterEventLoop ∉ (runApp BuildMode.release ⟨true, false⟩).1 :=
  release_spawn_failure_aborts ⟨true, false⟩ rfl rfl

/-- C5: in release mode, after a successful spawn the child handle is
stored in process-wide application state, and the state the application
carries into (and throughout) its event loop still holds that handle: the
run outcome is `running` with `managedChild = some Child.mk`.  In the
model the event loop never modifies the managed state, so this is the
state for the full run. -/
theorem release_success_child_managed (env : Env)
    (h1 : env.sidecarResolves = true) (h2 : env.spawnSucceeds = true) :
    (runApp BuildMode.release env).2 = RunOutcome.running ⟨some Child.mk⟩ ∧
    Event.manageChild ∈ (runApp BuildMode.release env).1 := by
  rcases env with ⟨r, s⟩
  cases r
  · exact Bool.noConfusion h1
  · cases s
    · exact Bool.noConfusion h2
    · exact ⟨rfl, by decide⟩

/-- C5 witness: all-success environment. -/
theorem release_success_child_managed_witness :
    (runApp BuildMode.release ⟨true, true⟩).2 =
      RunOutcome.running ⟨some Child.mk⟩ ∧
    Event.manageChild ∈ (runApp BuildMode.release ⟨true, true⟩).1 :=
  release_success_child_managed ⟨true, true⟩ rfl rfl

/-- C6: in either build mode and any environment, at most one child
process spawn is attempted over the whole run. -/
theorem at_most_one_spawn_per_run (mode : BuildMode) (env : Env) :
    countSpawnAttempts (runApp mode env).1 ≤ 1 := by
  rcases env with ⟨r, s⟩
  cases mode <;> cases r <;> cases s <;> decide

/-- C7: the setup step has exactly two mutually exclusive branches.  For
every run exactly one of them executes — release runs take the
spawn branch and debug runs take the diagnostic branch — and the branch
taken is selected by the compile-time build flag alone: it is the same for
every runtime environment. -/
theorem branches_exclusive_compile_time (mode : BuildMode) (env env2 : Env) :
    ((mode = BuildMode.release ∧
        branchOf (setupClosure mode env).1 = Branch.releaseSpawn) ∨
      (mode = BuildMode.debug ∧
        branchOf (setupClosure mode env).1 = Branch.debugDiagnostic)) ∧
    ¬(mode = BuildMode.release ∧ mode = BuildMode.debug) ∧
    branchOf (setupClosure mode env).1 = branchOf (setupClosure mode env2).1
    := by
  rcases env with ⟨r, s⟩
  rcases env2 with ⟨r2, s2⟩
  cases mode <;> cases r <;> cases s <;> cases r2 <;> cases s2 <;> decide

/-- C8: in release mode the communication channel of the spawned child is
accepted (the receiver `_rx` is part of the spawn result) but never
consumed: no read from the receiver occurs anywhere in the run trace. -/
theorem rx_never_read (env : Env) :
    countRxReads (runApp BuildMode.release env).1 = 0 := by
  rcases env with ⟨r, s⟩
  cases r <;> cases s <;> rfl

/-- C9: in debug mode setup has no error path: for every environment the
setup closure completes normally with `Ok(())` (it never panics), and the
application proceeds to its normal event loop. -/
theorem debug_setup_infallible (env : Env) :
    (setupClosure BuildMode.debug env).2 =
      SetupOutcome.completed (Except.ok ()) ⟨none⟩ ∧
    (runApp BuildMode.debug env).2 = RunOutcome.running ⟨none⟩ ∧
    Event.enterEventLoop ∈ (runApp BuildMode.debug env).1 := by
  exact ⟨rfl, rfl, List.mem_cons_of_mem _ (List.mem_singleton.mpr rfl)⟩

/-- C10: the setup callback never returns through its error channel: in
both build modes, whenever it completes normally its returned value is
`Ok(())`, and every release-mode failure (resolution or spawn) manifests
as a panic aborting startup rather than as a returned error value. -/
theorem setup_never_returns_err (mode : BuildMode) (env : Env) :
    (∀ ret st, (setupClosure mode env).2 = SetupOutcome.completed ret st →
      ret = Except.ok ()) ∧
    (mode = BuildMode.release →
      env.sidecarResolves = false ∨ env.spawnSucceeds = false →
      ∃ msg, (setupClosure mode env).2 = SetupOutcome.panicked msg) := by
  rcases env with ⟨r, s⟩
  cases mode <;> cases r <;> cases s
  case debug.false.false | debug.false.true | debug.true.false
    | debug.true.true =>
    refine ⟨fun ret st h => ?_, fun hm => BuildMode.noConfusion hm⟩
    injection h with h1 _
    exact h1.symm
  case release.true.true =>
    refine ⟨fun ret st h => ?_, fun _ hf => ?_⟩
    · injection h with h1 _
      exact h1.symm
    · rcases hf with hf | hf <;> exact Bool.noConfusion hf
  case release.false.false | release.false.true =>
    exact ⟨fun ret st h => SetupOutcome.noConfusion h,
      fun _ _ => ⟨"Failed to create sidecar command", rfl⟩⟩
  case release.true.false =>
    exact ⟨fun ret st h => SetupOutcome.noConfusion h,
      fun _ _ => ⟨"Failed to spawn backend sidecar", rfl⟩⟩

/-- C10 witness: in the release environment where the OS rejects process
creation, the failure is a panic (not a returned error). -/
theorem setup_never_returns_err_witness :
    ∃ msg, (setupClosure BuildMode.release ⟨true, false⟩).2 =
      SetupOutcome.panicked msg :=
  (setup_never_returns_err BuildMode.release ⟨true, false⟩).2 rfl
    (Or.inr rfl)
